import Mathlib

/-!
Verification of the session-store (authentication context), theme store and
route guards of the prompt-manager frontend.

The embedding models:
* JavaScript JSON values (`Json`), `JSON.parse` (`jsonParse`) and
  `JSON.stringify` (`stringify`);
* the auth context state (`AuthState`: the `user` React state, the `loading`
  flag, and the `localStorage` key `user`) and its operations
  `login`, `register`, `logout`, `updateUser`, `changePassword` and the
  initialization effect `initAuth`;
* the theme context state (`ThemeState`) and its operations;
* the route guards (`protectedRoute`, `publicRoute`).

The API client is an external collaborator (`../lib/api` is not part of the
sources); its behaviour at a call site is abstracted as an `ApiOutcome`:
either a resolved `{success, data, message}` envelope or a thrown error.
-/

namespace PromptManus

/-- Model of a JavaScript JSON value.  Numbers are kept as a decimal
mantissa/exponent pair (`num m e` denotes `m * 10^e`), which injects the JSON
number grammar without floating-point rounding; the numeric value itself is
never inspected by the code under verification. -/
inductive Json where
  | null
  | bool (b : Bool)
  | num (mantissa exp10 : Int)
  | str (s : String)
  | arr (elems : List Json)
  | obj (fields : List (String × Json))

/-- JavaScript truthiness of a JSON value (`null`, `false`, `0` and `""` are
falsy; arrays and objects are truthy). -/
def jsTruthy : Json → Bool
  | .null => false
  | .bool b => b
  | .num m _ => m != 0
  | .str s => s != ""
  | .arr _ => true
  | .obj _ => true

/-- Whether the value is JavaScript `null`. -/
def Json.isNull : Json → Bool
  | .null => true
  | _ => false

/-- Escape one character for a JSON string literal, as `JSON.stringify` does
for the common escapes. -/
def escapeChar (c : Char) : String :=
  if c = '"' then "\\\""
  else if c = '\\' then "\\\\"
  else if c = '\n' then "\\n"
  else if c = '\t' then "\\t"
  else if c = '\r' then "\\r"
  else String.singleton c

/-- Escape the characters of a JSON string literal body. -/
def escapeString (s : String) : String :=
  String.join (s.data.map escapeChar)

/-- Render a JSON number from its mantissa/exponent model.  The exact digit
format JavaScript would print is irrelevant to the properties proved here. -/
def stringifyNum (m e : Int) : String :=
  if e = 0 then toString m else toString m ++ "e" ++ toString e

mutual

/-- Model of `JSON.stringify` on JSON values. -/
def stringify : Json → String
  | .null => "null"
  | .bool true => "true"
  | .bool false => "false"
  | .num m e => stringifyNum m e
  | .str s => "\"" ++ escapeString s ++ "\""
  | .arr xs => "[" ++ stringifyArr xs ++ "]"
  | .obj fs => "\x7b" ++ stringifyObj fs ++ "\x7d"

/-- Comma-separated rendering of array elements. -/
def stringifyArr : List Json → String
  | [] => ""
  | [x] => stringify x
  | x :: xs => stringify x ++ "," ++ stringifyArr xs

/-- Comma-separated rendering of object members. -/
def stringifyObj : List (String × Json) → String
  | [] => ""
  | [(k, v)] => "\"" ++ escapeString k ++ "\":" ++ stringify v
  | (k, v) :: fs => "\"" ++ escapeString k ++ "\":" ++ stringify v ++ "," ++ stringifyObj fs

end

/-- Skip JSON whitespace. -/
def skipWs : List Char → List Char
  | c :: cs => if c = ' ' ∨ c = '\t' ∨ c = '\n' ∨ c = '\r' then skipWs cs else c :: cs
  | [] => []

/-- Value of a hexadecimal digit. -/
def hexVal (c : Char) : Option Nat :=
  if '0' ≤ c ∧ c ≤ '9' then some (c.toNat - '0'.toNat)
  else if 'a' ≤ c ∧ c ≤ 'f' then some (c.toNat - 'a'.toNat + 10)
  else if 'A' ≤ c ∧ c ≤ 'F' then some (c.toNat - 'A'.toNat + 10)
  else none

/-- Parse the body of a JSON string literal (after the opening quote),
returning the characters and the rest of the input.  Handles the standard
escapes and `\uXXXX`; rejects raw control characters, as `JSON.parse` does. -/
def parseStrChars : List Char → Option (List Char × List Char)
  | [] => none
  | '"' :: rest => some ([], rest)
  | '\\' :: 'u' :: h1 :: h2 :: h3 :: h4 :: rest => do
      let a ← hexVal h1
      let b ← hexVal h2
      let c ← hexVal h3
      let d ← hexVal h4
      let (l, r) ← parseStrChars rest
      some (Char.ofNat (((a * 16 + b) * 16 + c) * 16 + d) :: l, r)
  | '\\' :: c :: rest => do
      let e ←
        if c = '"' then some '"'
        else if c = '\\' then some '\\'
        else if c = '/' then some '/'
        else if c = 'n' then some '\n'
        else if c = 't' then some '\t'
        else if c = 'r' then some '\r'
        else if c = 'b' then some (Char.ofNat 8)
        else if c = 'f' then some (Char.ofNat 12)
        else none
      let (l, r) ← parseStrChars rest
      some (e :: l, r)
  | c :: rest =>
      if c.toNat < 32 then none
      else do
        let (l, r) ← parseStrChars rest
        some (c :: l, r)

/-- Take a maximal run of decimal digits. -/
def takeDigits : List Char → List Nat × List Char
  | c :: cs =>
      if '0' ≤ c ∧ c ≤ '9' then
        let (ds, rest) := takeDigits cs
        ((c.toNat - '0'.toNat) :: ds, rest)
      else ([], c :: cs)
  | [] => ([], [])

/-- Digits to a natural number, most significant first. -/
def digitsToNat (ds : List Nat) : Nat :=
  ds.foldl (fun acc d => acc * 10 + d) 0

/-- Parse a JSON number literal: optional minus sign, integer part with no
leading zero, optional fraction, optional exponent.  Returns the
mantissa/exponent model and the rest of the input. -/
def parseNum (cs : List Char) : Option ((Int × Int) × List Char) :=
  let (neg, cs1) :=
    match cs with
    | '-' :: rest => (true, rest)
    | _ => (false, cs)
  let (intDs, cs2) := takeDigits cs1
  if intDs = [] then none
  else if 1 < intDs.length ∧ intDs.headD 0 = 0 then none
  else
    let fracPart : Option (List Nat × List Char) :=
      match cs2 with
      | '.' :: rest =>
          let (ds, r) := takeDigits rest
          if ds = [] then none else some (ds, r)
      | _ => some ([], cs2)
    match fracPart with
    | none => none
    | some (fracDs, afterFrac) =>
      let expPart : Option (Int × List Char) :=
        match afterFrac with
        | 'e' :: rest | 'E' :: rest =>
            let (esign, rest1) :=
              match rest with
              | '+' :: r => ((1 : Int), r)
              | '-' :: r => ((-1 : Int), r)
              | _ => ((1 : Int), rest)
            let (expDs, rest2) := takeDigits rest1
            if expDs = [] then none
            else some (esign * (digitsToNat expDs : Int), rest2)
        | _ => some (0, afterFrac)
      match expPart with
      | none => none
      | some (e, rest) =>
          let mant : Int := (digitsToNat (intDs ++ fracDs) : Int)
          let mant := if neg then -mant else mant
          some ((mant, e - (fracDs.length : Int)), rest)

mutual

/-- Fuel-indexed recursive-descent parser for one JSON value. -/
def parseVal : Nat → List Char → Option (Json × List Char)
  | 0, _ => none
  | fuel + 1, cs =>
      match skipWs cs with
      | 'n' :: 'u' :: 'l' :: 'l' :: rest => some (.null, rest)
      | 't' :: 'r' :: 'u' :: 'e' :: rest => some (.bool true, rest)
      | 'f' :: 'a' :: 'l' :: 's' :: 'e' :: rest => some (.bool false, rest)
      | '"' :: rest => do
          let (l, r) ← parseStrChars rest
          some (.str (String.mk l), r)
      | '[' :: rest =>
          (match skipWs rest with
           | ']' :: r => some (.arr [], r)
           | _ => do
               let (vs, r) ← parseElems fuel rest
               some (.arr vs, r))
      | '{' :: rest =>
          (match skipWs rest with
           | '}' :: r => some (.obj [], r)
           | _ => do
               let (fs, r) ← parseFields fuel rest
               some (.obj fs, r))
      | other => do
          let ((m, e), r) ← parseNum other
          some (.num m e, r)

/-- Parse `value (, value)* ]` inside an array. -/
def parseElems : Nat → List Char → Option (List Json × List Char)
  | 0, _ => none
  | fuel + 1, cs => do
      let (v, r) ← parseVal fuel cs
      match skipWs r with
      | ',' :: r2 => do
          let (vs, r3) ← parseElems fuel r2
          some (v :: vs, r3)
      | ']' :: r2 => some ([v], r2)
      | _ => none

/-- Parse `"key" : value (, "key" : value)* }` inside an object. -/
def parseFields : Nat → List Char → Option (List (String × Json) × List Char)
  | 0, _ => none
  | fuel + 1, cs =>
      match skipWs cs with
      | '"' :: r => do
          let (k, r1) ← parseStrChars r
          match skipWs r1 with
          | ':' :: r2 => do
              let (v, r3) ← parseVal fuel r2
              match skipWs r3 with
              | ',' :: r4 => do
                  let (fs, r5) ← parseFields fuel r4
                  some ((String.mk k, v) :: fs, r5)
              | '}' :: r4 => some ([(String.mk k, v)], r4)
              | _ => none
          | _ => none
      | _ => none

end

/-- Model of `JSON.parse`: parses exactly one JSON value, allowing surrounding
whitespace; `none` models the thrown `SyntaxError`.  In particular
`jsonParse "" = none`, since the empty input holds no value. -/
def jsonParse (s : String) : Option Json :=
  match parseVal (s.length + 1) s.data with
  | some (v, rest) => if skipWs rest = [] then some v else none
  | none => none

/-- State of the auth context: the `user` React state (a JavaScript value,
`Json.null` when logged out), the `loading` flag, and the current value of the
`localStorage` key `user` (`none` when the key is absent). -/
structure AuthState where
  user : Json
  loading : Bool
  storageUser : Option String

/-- A resolved API response envelope `{success, data, message}`.  `data` is
`Json.null` when the field is absent; `message` is `none` when absent. -/
structure Response where
  success : Bool
  data : Json
  message : Option String

/-- A thrown error as the catch blocks inspect it: the optional chain
`error.response?.data?.message` collapsed to its result (`none` when any link
is missing, as for a `TypeError`). -/
structure JsError where
  responseDataMessage : Option String

/-- Behaviour of the external API client at one call site: either the awaited
call resolves to a response envelope, or it throws. -/
inductive ApiOutcome where
  | resp (r : Response)
  | thrown (e : JsError)

/-- The value an auth operation returns to its caller: `{success:true, user}`
or `{success:false, error}` (absent fields are `none`). -/
structure OpResult where
  success : Bool
  user : Option Json
  error : Option String

/-- JavaScript `m || fb` on an optional string `m`: the fallback is used when
`m` is absent or empty (falsy). -/
def jsOrString : Option String → String → String
  | some s, fb => if s = "" then fb else s
  | none, fb => fb

/-- The generic network-failure fallback message used by every catch block
(`'网络错误，请稍后重试'`). -/
def netErrorFallback : String := "网络错误，请稍后重试"

/-- `login` from `AuthContext.jsx` (lines 33–55).  The credentials only form
the request body; the API client's behaviour is abstracted as `o`.  On a
`success:true` response the returned identity is adopted, stringified into the
`user` storage key, and returned; otherwise a failure envelope is built from
`response.message || '登录失败'`, and a thrown error yields
`error.response?.data?.message || netErrorFallback`. -/
def login (st : AuthState) (o : ApiOutcome) : AuthState × OpResult :=
  match o with
  | .resp r =>
      if r.success then
        let userData := r.data
        ({ st with user := userData, storageUser := some (stringify userData) },
         { success := true, user := some userData, error := none })
      else
        (st, { success := false, user := none,
               error := some (jsOrString r.message "登录失败") })
  | .thrown e =>
      (st, { success := false, user := none,
             error := some (jsOrString e.responseDataMessage netErrorFallback) })

/-- `register` from `AuthContext.jsx` (lines 58–82): identical to `login`
except for the rejection fallback message `'注册失败'`. -/
def register (st : AuthState) (o : ApiOutcome) : AuthState × OpResult :=
  match o with
  | .resp r =>
      if r.success then
        let userData := r.data
        ({ st with user := userData, storageUser := some (stringify userData) },
         { success := true, user := some userData, error := none })
      else
        (st, { success := false, user := none,
               error := some (jsOrString r.message "注册失败") })
  | .thrown e =>
      (st, { success := false, user := none,
             error := some (jsOrString e.responseDataMessage netErrorFallback) })

/-- `logout` from `AuthContext.jsx` (lines 85–88): `setUser(null)` and
`localStorage.removeItem('user')`.  It takes no `ApiOutcome` — no network call
occurs — and is a total function: it always succeeds. -/
def logout (st : AuthState) : AuthState :=
  { st with user := .null, storageUser := none }

/-- `updateUser` from `AuthContext.jsx` (lines 91–110).  The request URL
interpolates `user.id`: when `user` is `null` this member access throws a
`TypeError` inside the `try` block before any request is sent, so the catch
block runs with an error that has no `response` property and the operation
returns the generic fallback envelope.  Otherwise the API client's behaviour
is `o`, handled as in `login` with rejection fallback `'更新失败'`. -/
def updateUser (st : AuthState) (o : ApiOutcome) : AuthState × OpResult :=
  if st.user.isNull then
    (st, { success := false, user := none, error := some netErrorFallback })
  else
    match o with
    | .resp r =>
        if r.success then
          let updatedUser := r.data
          ({ st with user := updatedUser, storageUser := some (stringify updatedUser) },
           { success := true, user := some updatedUser, error := none })
        else
          (st, { success := false, user := none,
                 error := some (jsOrString r.message "更新失败") })
    | .thrown e =>
        (st, { success := false, user := none,
               error := some (jsOrString e.responseDataMessage netErrorFallback) })

/-- `changePassword` from `AuthContext.jsx` (lines 113–132).  The request URL
also interpolates `user.id` (same `TypeError` behaviour on a `null` user).  On
a `success:true` response it returns only `{success:true}` and touches neither
the `user` state nor storage; the rejection fallback is `'密码修改失败'`. -/
def changePassword (st : AuthState) (o : ApiOutcome) : AuthState × OpResult :=
  if st.user.isNull then
    (st, { success := false, user := none, error := some netErrorFallback })
  else
    match o with
    | .resp r =>
        if r.success then
          (st, { success := true, user := none, error := none })
        else
          (st, { success := false, user := none,
                 error := some (jsOrString r.message "密码修改失败") })
    | .thrown e =>
        (st, { success := false, user := none,
               error := some (jsOrString e.responseDataMessage netErrorFallback) })

/-- The initialization effect of `AuthProvider` (`AuthContext.jsx`,
lines 19–30), as a function of the stored value of the `user` key at mount
(`none` when the key is absent).  `if (savedUser)` is a truthiness test, so an
empty stored string is skipped like an absent key; a non-empty value is
`JSON.parse`d, a parse failure removes the key, and `setLoading(false)` runs
in every case. -/
def initAuth (stored : Option String) : AuthState :=
  match stored with
  | none => { user := .null, loading := false, storageUser := none }
  | some s =>
      if s = "" then { user := .null, loading := false, storageUser := some s }
      else
        match jsonParse s with
        | some v => { user := v, loading := false, storageUser := some s }
        | none => { user := .null, loading := false, storageUser := none }

/-- State of the theme context: the `theme` React state, the `localStorage`
key `theme`, and the class applied to `document.documentElement`
(`updateDocumentTheme`). -/
structure ThemeState where
  theme : String
  storageTheme : Option String
  docTheme : String

/-- The new-theme computation in `toggleTheme` (`ThemeContext.jsx`,
line 35): `theme === 'light' ? 'dark' : 'light'`. -/
def toggleThemeValue (t : String) : String :=
  if t = "light" then "dark" else "light"

/-- `toggleTheme` from `ThemeContext.jsx` (lines 34–39): computes the flipped
value, sets it, persists it, and applies it to the document. -/
def toggleTheme (st : ThemeState) : ThemeState :=
  let newTheme := toggleThemeValue st.theme
  { theme := newTheme, storageTheme := some newTheme, docTheme := newTheme }

/-- `setThemeMode` from `ThemeContext.jsx` (lines 42–46): sets, persists and
applies the given value with no validation. -/
def setThemeMode (_st : ThemeState) (newTheme : String) : ThemeState :=
  { theme := newTheme, storageTheme := some newTheme, docTheme := newTheme }

/-- The initialization effect of `ThemeProvider` (`ThemeContext.jsx`,
lines 17–24), as a function of the stored `theme` key and the environment
preference `window.matchMedia('(prefers-color-scheme: dark)').matches`.
`savedTheme || systemTheme` is a JavaScript truthy-or, so an absent key or an
empty stored string resolves to the system theme. -/
def initTheme (stored : Option String) (systemPrefersDark : Bool) : ThemeState :=
  let systemTheme := if systemPrefersDark then "dark" else "light"
  let initialTheme :=
    match stored with
    | some s => if s = "" then systemTheme else s
    | none => systemTheme
  { theme := initialTheme, storageTheme := stored, docTheme := initialTheme }

/-- What a route guard renders: the loading spinner, its child, or a
`<Navigate to=... replace />` redirect. -/
inductive RenderOutcome where
  | spinner
  | child
  | redirect (target : String)
deriving DecidableEq

/-- `ProtectedRoute` from `App.jsx` (lines 20–36): spinner while loading, the
child when `user` is truthy, otherwise a redirect to `/login`. -/
def protectedRoute (loading : Bool) (user : Json) : RenderOutcome :=
  if loading then .spinner
  else if jsTruthy user then .child
  else .redirect "/login"

/-- `PublicRoute` from `App.jsx` (lines 39–55): spinner while loading, a
redirect to `/dashboard` when `user` is truthy, otherwise the child. -/
def publicRoute (loading : Bool) (user : Json) : RenderOutcome :=
  if loading then .spinner
  else if jsTruthy user then .redirect "/dashboard"
  else .child

/-- C1: for every login call whose API response has `success:true`, after the
call the current identity equals the response's `data` field, the storage key
`user` holds the JSON serialization of that identity, and the call returns a
success result carrying that identity. -/
theorem claim_C1 (st : AuthState) (r : Response) (h : r.success = true) :
    (login st (.resp r)).1.user = r.data ∧
    (login st (.resp r)).1.storageUser = some (stringify r.data) ∧
    (login st (.resp r)).2 = { success := true, user := some r.data, error := none } := by
  simp [login, h]

/-- Witness for C1 at a concrete state and response. -/
theorem claim_C1_witness :
    (login { user := .null, loading := false, storageUser := none }
        (.resp { success := true, data := .str "alice", message := none })).1.user
      = Json.str "alice" ∧
    (login { user := .null, loading := false, storageUser := none }
        (.resp { success := true, data := .str "alice", message := none })).1.storageUser
      = some (stringify (.str "alice")) ∧
    (login { user := .null, loading := false, storageUser := none }
        (.resp { success := true, data := .str "alice", message := none })).2
      = { success := true, user := some (.str "alice"), error := none } :=
  claim_C1 _ _ rfl

/-- C2: for every login, register or updateUser call whose API response has
`success:false`, the whole auth state — current identity and the storage key
`user` — is unchanged by the call. -/
theorem claim_C2 (st : AuthState) (r : Response) (h : r.success = false) :
    (login st (.resp r)).1 = st ∧
    (register st (.resp r)).1 = st ∧
    (updateUser st (.resp r)).1 = st := by
  cases hn : st.user.isNull <;>
    simp [login, register, updateUser, h, hn]

/-- Witness for C2 at a concrete state and rejection response. -/
theorem claim_C2_witness :
    (login { user := .str "bob", loading := false, storageUser := some "s" }
        (.resp { success := false, data := .null, message := some "bad credentials" })).1
      = { user := .str "bob", loading := false, storageUser := some "s" } ∧
    (register { user := .str "bob", loading := false, storageUser := some "s" }
        (.resp { success := false, data := .null, message := some "bad credentials" })).1
      = { user := .str "bob", loading := false, storageUser := some "s" } ∧
    (updateUser { user := .str "bob", loading := false, storageUser := some "s" }
        (.resp { success := false, data := .null, message := some "bad credentials" })).1
      = { user := .str "bob", loading := false, storageUser := some "s" } :=
  claim_C2 _ _ rfl

/-- C3: for every prior state, `logout` sets the current identity to null and
removes the storage key `user`.  It is a total function of the state alone —
no `ApiOutcome` appears, so no network call — and hence always succeeds. -/
theorem claim_C3 (st : AuthState) :
    (logout st).user = Json.null ∧ (logout st).storageUser = none := by
  simp [logout]

/-- C4 counterexample: the empty string is a stored value under the key
`user` that fails to parse as JSON (`JSON.parse('')` throws), yet after
initialization the key is NOT removed — `if (savedUser)` is falsy on the
empty string, so the corrupt value is skipped and left in storage.  This
refutes the claim that every unparseable stored value ends with the key
removed. -/
theorem claim_C4_counterexample :
    jsonParse "" = none ∧
    (initAuth (some "")).storageUser = some "" ∧
    (initAuth (some "")).storageUser ≠ none := by
  refine ⟨rfl, rfl, by simp [initAuth]⟩

/-- C4 (amended): for every NON-EMPTY stored value that fails to parse,
initialization ends with no current identity, the key removed and the loading
flag false; an empty stored string is treated as absent — no identity,
loading false, but the key is left unchanged; for a non-empty stored value
that parses, the parsed value is adopted as current identity. -/
theorem claim_C4_amended (s : String) (v : Json) :
    (s ≠ "" → jsonParse s = none →
      (initAuth (some s)).user = Json.null ∧
      (initAuth (some s)).storageUser = none ∧
      (initAuth (some s)).loading = false) ∧
    ((initAuth (some "")).user = Json.null ∧
      (initAuth (some "")).storageUser = some "" ∧
      (initAuth (some "")).loading = false) ∧
    (s ≠ "" → jsonParse s = some v →
      (initAuth (some s)).user = v ∧
      (initAuth (some s)).storageUser = some s ∧
      (initAuth (some s)).loading = false) := by
  refine ⟨fun hs hp => ?_, by simp [initAuth], fun hs hp => ?_⟩ <;>
    simp [initAuth, hs, hp]

/-- Witness for C4 (amended): `"corrupt"` is non-empty and unparseable, so
the key is removed; `"42"` is non-empty and parses to the number 42, which is
adopted. -/
theorem claim_C4_witness :
    ((initAuth (some "corrupt")).user = Json.null ∧
      (initAuth (some "corrupt")).storageUser = none ∧
      (initAuth (some "corrupt")).loading = false) ∧
    ((initAuth (some "42")).user = Json.num 42 0 ∧
      (initAuth (some "42")).storageUser = some "42" ∧
      (initAuth (some "42")).loading = false) :=
  ⟨(claim_C4_amended "corrupt" .null).1 (by simp) rfl,
   (claim_C4_amended "42" (.num 42 0)).2.2 (by simp) rfl⟩

/-- The failure message an operation's failure envelope carries for a given
API-client behaviour: the server's `message` when it is truthy, otherwise the
operation's rejection fallback; for a thrown error, the optional chain
`error.response?.data?.message` when truthy, otherwise the generic network
fallback. -/
def failureMessage (o : ApiOutcome) (rejectFallback : String) : String :=
  match o with
  | .resp r => jsOrString r.message rejectFallback
  | .thrown e => jsOrString e.responseDataMessage netErrorFallback

/-- An operation result is a well-formed envelope for behaviour `o`: either a
success with no error, or a failure carrying exactly the message drawn from
the server response when available and the fallback otherwise. -/
def wellFormedResult (o : ApiOutcome) (rejectFallback : String) (res : OpResult) : Prop :=
  (res.success = true ∧ res.error = none) ∨
  (res.success = false ∧ res.error = some (failureMessage o rejectFallback))

/-- C5: every session-store operation, under every API-client behaviour
(resolved success, resolved rejection, or thrown transport error), returns a
plain envelope — being total Lean functions into `AuthState × OpResult`, the
operations propagate no exception — and the failure message is the server's
when available, the generic/operation fallback otherwise.  For `updateUser`
and `changePassword` with a null user, the `user.id` access throws inside the
`try` and the result is the generic-fallback failure envelope (no server
response was obtained, so no server message is available). -/
theorem claim_C5 (st : AuthState) (o : ApiOutcome) :
    wellFormedResult o "登录失败" (login st o).2 ∧
    wellFormedResult o "注册失败" (register st o).2 ∧
    (st.user.isNull = false → wellFormedResult o "更新失败" (updateUser st o).2) ∧
    (st.user.isNull = true →
      (updateUser st o).2 = { success := false, user := none, error := some netErrorFallback }) ∧
    (st.user.isNull = false → wellFormedResult o "密码修改失败" (changePassword st o).2) ∧
    (st.user.isNull = true →
      (changePassword st o).2 = { success := false, user := none, error := some netErrorFallback }) := by
  cases o with
  | resp r =>
      cases hr : r.success <;> cases hn : st.user.isNull <;>
        simp [login, register, updateUser, changePassword,
              wellFormedResult, failureMessage, hr, hn]
  | thrown e =>
      cases hn : st.user.isNull <;>
        simp [login, register, updateUser, changePassword,
              wellFormedResult, failureMessage, hn]

/-- Witness for C5: a logged-out state and a rejection response with message
`"bad credentials"` give a well-formed login failure envelope, and the
null-user `updateUser` call returns the generic-fallback envelope. -/
theorem claim_C5_witness :
    wellFormedResult
        (.resp { success := false, data := .null, message := some "bad credentials" })
        "登录失败"
        (login { user := .null, loading := false, storageUser := none }
          (.resp { success := false, data := .null, message := some "bad credentials" })).2 ∧
    (updateUser { user := .null, loading := false, storageUser := none }
        (.resp { success := false, data := .null, message := some "bad credentials" })).2
      = { success := false, user := none, error := some netErrorFallback } :=
  ⟨(claim_C5 _ _).1, (claim_C5 _ _).2.2.2.1 rfl⟩

/-- C6: for a guard over a session state whose user value is null or an
object (the shapes an identity can take), once loading is false the protected
guard renders its child exactly when an identity is present and otherwise
redirects to `/login`, and the public guard redirects to `/dashboard` exactly
when an identity is present and otherwise renders its child; while loading is
true both guards render the spinner and make no navigation decision. -/
theorem claim_C6 (loading : Bool) (user : Json)
    (h : user = Json.null ∨ ∃ fs, user = Json.obj fs) :
    (loading = true →
      protectedRoute loading user = .spinner ∧ publicRoute loading user = .spinner) ∧
    (loading = false →
      (protectedRoute loading user = .child ↔ user ≠ Json.null) ∧
      (user = Json.null → protectedRoute loading user = .redirect "/login") ∧
      (publicRoute loading user = .redirect "/dashboard" ↔ user ≠ Json.null) ∧
      (user = Json.null → publicRoute loading user = .child)) := by
  rcases h with rfl | ⟨fs, rfl⟩ <;> cases loading <;>
    simp [protectedRoute, publicRoute, jsTruthy]

/-- Witness for C6 at a resolved state holding an object identity. -/
theorem claim_C6_witness :
    (false = true →
      protectedRoute false (Json.obj []) = .spinner ∧
      publicRoute false (Json.obj []) = .spinner) ∧
    (false = false →
      (protectedRoute false (Json.obj []) = .child ↔ Json.obj [] ≠ Json.null) ∧
      (Json.obj [] = Json.null → protectedRoute false (Json.obj []) = .redirect "/login") ∧
      (publicRoute false (Json.obj []) = .redirect "/dashboard" ↔ Json.obj [] ≠ Json.null) ∧
      (Json.obj [] = Json.null → publicRoute false (Json.obj []) = .child)) :=
  claim_C6 false (Json.obj []) (Or.inr ⟨[], rfl⟩)

/-- C7: on the theme domain of the data model (`"light"` or `"dark"`),
applying `toggleTheme` twice returns the theme to its original value. -/
theorem claim_C7 (st : ThemeState) (h : st.theme = "light" ∨ st.theme = "dark") :
    (toggleTheme (toggleTheme st)).theme = st.theme := by
  rcases h with h | h <;> simp [toggleTheme, toggleThemeValue, h]

/-- Witness for C7 starting from the light theme. -/
theorem claim_C7_witness :
    (toggleTheme (toggleTheme { theme := "light", storageTheme := none, docTheme := "light" })).theme
      = "light" :=
  claim_C7 _ (Or.inl rfl)

/-- C8 counterexample: with the empty string stored under the key `theme` and
environment preference dark, a stored value exists, yet initialization adopts
`"dark"` — the environment preference — not the stored value:
`savedTheme || systemTheme` is falsy on the empty string.  This refutes the
claim that whenever a stored value exists it is adopted. -/
theorem claim_C8_counterexample :
    (initTheme (some "") true).storageTheme = some "" ∧
    (initTheme (some "") true).theme = "dark" ∧
    (initTheme (some "") true).theme ≠ "" := by
  refine ⟨rfl, rfl, by simp [initTheme]⟩

/-- C8 (amended): when no value — or an empty string, which the truthy-or
treats as absent — is stored under the key `theme`, initialization adopts the
environment's presentation preference; when a NON-EMPTY stored value exists,
that stored value is adopted instead; in every case the resolved value is
applied to the document-level presentation state. -/
theorem claim_C8_amended (stored : Option String) (dark : Bool) :
    ((stored = none ∨ stored = some "") →
      (initTheme stored dark).theme = (if dark then "dark" else "light")) ∧
    (∀ s, stored = some s → s ≠ "" → (initTheme stored dark).theme = s) ∧
    (initTheme stored dark).docTheme = (initTheme stored dark).theme := by
  refine ⟨fun h => ?_, fun s hs hne => ?_, ?_⟩
  · rcases h with rfl | rfl <;> cases dark <;> simp [initTheme]
  · subst hs; simp [initTheme, hne]
  · rcases stored with _ | s
    · simp [initTheme]
    · by_cases hne : s = "" <;> simp [initTheme, hne]

/-- Witness for C8 (amended): no stored preference plus environment
preference dark yields theme `"dark"`; a stored `"light"` is adopted over a
dark environment preference. -/
theorem claim_C8_witness :
    (initTheme none true).theme = (if true then "dark" else "light") ∧
    (initTheme (some "light") true).theme = "light" :=
  ⟨(claim_C8_amended none true).1 (Or.inl rfl),
   (claim_C8_amended (some "light") true).2.1 "light" rfl (by simp)⟩

/-- C9: for every `changePassword` call whose API response has
`success:true` (so the call was actually issued: the user is non-null), the
whole auth state — current identity and the storage key `user` — is unchanged
and the result carries only the success flag. -/
theorem claim_C9 (st : AuthState) (r : Response)
    (hu : st.user.isNull = false) (hs : r.success = true) :
    changePassword st (.resp r) = (st, { success := true, user := none, error := none }) := by
  simp [changePassword, hu, hs]

/-- Witness for C9 at a concrete logged-in state and success response. -/
theorem claim_C9_witness :
    changePassword { user := .obj [], loading := false, storageUser := some "s" }
        (.resp { success := true, data := .null, message := none })
      = ({ user := .obj [], loading := false, storageUser := some "s" },
         { success := true, user := none, error := none }) :=
  claim_C9 _ _ rfl rfl

/-- C10: calling `updateUser` while no current identity is held (user is
null) raises no exception to the caller: the `user.id` access faults inside
the `try`, the catch block returns the generic-fallback failure envelope, and
the state — identity still absent, storage untouched — is unchanged,
whatever the API client would have done. -/
theorem claim_C10 (st : AuthState) (o : ApiOutcome) (h : st.user.isNull = true) :
    updateUser st o = (st, { success := false, user := none, error := some netErrorFallback }) := by
  simp [updateUser, h]

/-- Witness for C10 at the logged-out state. -/
theorem claim_C10_witness :
    updateUser { user := .null, loading := false, storageUser := none }
        (.resp { success := true, data := .obj [], message := none })
      = ({ user := .null, loading := false, storageUser := none },
         { success := false, user := none, error := some netErrorFallback }) :=
  claim_C10 _ _ rfl

end PromptManus
